import Mathlib

/-!
Shallow embedding of the `loadshedder` concurrency limiter.

The embedded code is the token-based limiter of `src/limiter.go`
(`Config`/`New`/`Loadshedder.Acquire`/`Token.Release`) together with the
EMA duration tracker of `src/duration.go`
(`newDurationTracker`/`record`/`average`).

Go machine-integer behaviour is modelled explicitly:
* the occupancy counter is an `atomic.Int64`; additions wrap, modelled by
  `wrap64` on `Int`;
* the tracker's average is an `atomic.Uint64`; `uint64(d.Nanoseconds())`
  is modelled by `toU64`, and `time.Duration(nanos)` (uint64 read back as
  int64) by `toI64`;
* the EMA blend is computed by Go in IEEE-754 float64; it is modelled here
  over `ℚ` (see `recordNanos`).  No theorem below depends on that branch.

Operations are sequentialised: the CAS retry loop of `record` and the
atomic add of `Acquire`/`Release` are linearisable, so a single-threaded
state-passing model captures each interleaving point.
-/

namespace Loadshedder

/-- Wraparound of signed 64-bit addition and multiplication results, as
performed by Go `int64` arithmetic. -/
def wrap64 (x : Int) : Int := (x + 2 ^ 63) % 2 ^ 64 - 2 ^ 63

/-- Conversion `uint64(x)` of an int64 value, as in
`uint64(duration.Nanoseconds())` in `durationTracker.record`. -/
def toU64 (x : Int) : Nat := (x % 2 ^ 64).toNat

/-- Reinterpretation of a uint64 value as an int64, as in
`time.Duration(nanos)` in `durationTracker.average`. -/
def toI64 (n : Nat) : Int := if n < 2 ^ 63 then (n : Int) else (n : Int) - 2 ^ 64

/-- Rounding half away from zero, the behaviour of Go `math.Round`. -/
def roundAway (q : ℚ) : Int := if 0 ≤ q then Int.floor (q + 1 / 2) else -Int.floor (-q + 1 / 2)

/-- State of `durationTracker` (src/duration.go): the atomically stored
EMA in nanoseconds (`avgDuration atomic.Uint64`) and the immutable
smoothing factor `alpha`. -/
structure Tracker where
  avgDuration : Nat
  alpha : ℚ
  deriving Repr, DecidableEq

/-- Embedding of `newDurationTracker` (src/duration.go lines 20-27):
panics (`none`) unless `0 < alpha < 1`, else starts with `avgDuration = 0`.
The float64 comparisons `alpha <= 0 || alpha >= 1` agree with the rational
order on every non-NaN value, which is how `alpha` is modelled. -/
def newDurationTracker (alpha : ℚ) : Option Tracker :=
  if alpha ≤ 0 ∨ 1 ≤ alpha then none else some ⟨0, alpha⟩

/-- Embedding of the body of the CAS loop of `durationTracker.record`
(src/duration.go lines 32-52) on the nanosecond value: a zero stored
average takes the new measurement directly; otherwise the EMA blend
`alpha*nanos + (1-alpha)*old` is formed and rounded.  Go computes the
blend in float64; the model uses exact rationals — no claim below is
settled on this branch (see the C7 analysis). -/
def recordNanos (t : Tracker) (nanos : Nat) : Tracker :=
  if t.avgDuration = 0 then { t with avgDuration := nanos }
  else
    { t with
      avgDuration :=
        (roundAway (t.alpha * (nanos : ℚ) + (1 - t.alpha) * (t.avgDuration : ℚ)) % 2 ^ 64).toNat }

/-- Embedding of `durationTracker.record` on an int64 duration `d`:
`nanos := uint64(duration.Nanoseconds())` then the CAS-loop update. -/
def record (t : Tracker) (d : Int) : Tracker := recordNanos t (toU64 d)

/-- Embedding of `durationTracker.average` (src/duration.go lines 56-59):
the stored uint64 read back as a `time.Duration` (int64). -/
def average (t : Tracker) : Int := toI64 t.avgDuration

/-- Embedding of `Token` (src/limiter.go lines 10-14).  The `start`
timestamp is real time; the elapsed duration it induces is passed to
`releaseTok` as an explicit argument instead. -/
structure Token where
  accepted : Bool
  deriving Repr, DecidableEq

/-- State of `Loadshedder` (src/limiter.go lines 54-61): immutable
`limit` and `maxWaitTime`, the atomic occupancy counter `current`, and
the duration tracker. -/
structure Shedder where
  limit : Int
  current : Int
  maxWaitTime : Int
  tracker : Tracker
  deriving Repr, DecidableEq

/-- Embedding of `New(cfg Config)` (src/limiter.go lines 64-82): panics
(`none`) when `cfg.Limit <= 0`; an `EMAAlpha` equal to 0 is replaced by
the default 0.1 (`mkRat 1 10`) before `newDurationTracker` is called, whose own panic
propagates. -/
def New (limitC maxWaitTimeC : Int) (emaAlpha : ℚ) : Option Shedder :=
  if limitC ≤ 0 then none
  else
    (newDurationTracker (if emaAlpha = 0 then mkRat 1 10 else emaAlpha)).map fun dt =>
      ⟨limitC, 0, maxWaitTimeC, dt⟩

/-- Embedding of `Loadshedder.calculateProjectedWaitTime`
(src/limiter.go lines 125-138): zero when not over the limit or when no
duration has been recorded, else `queueDepth * avgDuration` in int64
arithmetic. -/
def calculateProjectedWaitTime (l : Shedder) (current : Int) : Int :=
  if current ≤ l.limit then 0
  else
    let avgDuration := average l.tracker
    if avgDuration = 0 then 0
    else wrap64 (wrap64 (current - l.limit) * avgDuration)

/-- Embedding of `Loadshedder.Acquire` (src/limiter.go lines 87-111):
optimistically increment the counter; over the limit, either admit via
the QoS projected-wait test (when `maxWaitTime > 0`) or decrement back
and reject. -/
def acquire (l : Shedder) : Token × Shedder :=
  let current := wrap64 (l.current + 1)
  let l1 : Shedder := { l with current := current }
  if current > l.limit then
    if l.maxWaitTime > 0 ∧ calculateProjectedWaitTime l1 current ≤ l.maxWaitTime then
      (⟨true⟩, l1)
    else (⟨false⟩, { l1 with current := wrap64 (current - 1) })
  else (⟨true⟩, l1)

/-- Embedding of `Token.Release` (src/limiter.go lines 25-32): a no-op on
a non-accepted token; otherwise the counter is decremented and the
elapsed duration `d` (Go: `time.Since(t.start)`) is recorded.  There is
no idempotency guard in this code. -/
def releaseTok (tok : Token) (d : Int) (l : Shedder) : Shedder :=
  if tok.accepted = false then l
  else { l with current := wrap64 (l.current - 1), tracker := record l.tracker d }

/-- Modelled from the spec: the waiting-queue engine `New(limit, waitingLimit)`
of the `Stats`/semaphore variant, whose implementation file is not under
src (only its tests, e.g. `TestLoadshedder_PanicsWithNegativeWaitingLimit`
in src/unnamed/part_001, and its README are).  Per spec §4.1: fails
fatally if `limit <= 0` or `waitingLimit < 0`, and initializes the
occupancy counter to 0. -/
structure EngineS where
  limit : Int
  waitingLimit : Int
  current : Int
  deriving Repr, DecidableEq

/-- Modelled from the spec: construction of the waiting-queue engine;
`none` models the fatal configuration panic. -/
def NewS (limit waitingLimit : Int) : Option EngineS :=
  if limit ≤ 0 ∨ waitingLimit < 0 then none else some ⟨limit, waitingLimit, 0⟩

/-- Modelled from the spec: `Release` applied to a possibly-nil token
pointer ("No-op if token is nil", spec §4.1); a non-nil token is handled
by the embedded `Token.Release` code. -/
def releaseOpt (tok : Option Token) (d : Int) (l : Shedder) : Shedder :=
  match tok with
  | none => l
  | some t => releaseTok t d l

/-- Arithmetic helper: `wrap64` is the identity on the int64 range. -/
theorem wrap64_eq_of_range (x : Int) (h1 : -(2 ^ 63) ≤ x) (h2 : x < 2 ^ 63) :
    wrap64 x = x := by
  unfold wrap64
  omega

/-- Arithmetic helper: reading back a stored int64 duration is the
identity on the int64 range. -/
theorem toI64_toU64 (d : Int) (h1 : -(2 ^ 63) ≤ d) (h2 : d < 2 ^ 63) :
    toI64 (toU64 d) = d := by
  unfold toI64 toU64
  omega

/-- C1: the claim says Release on the same token N times has the identical
effect on the occupancy counter as calling it once, every subsequent
Release being a no-op.  On the embedded `Token.Release` of src/limiter.go
this fails: from a fresh limiter (`New` with Limit 1), the token returned
by `Acquire` is accepted, one Release brings the counter to 0, and a
second Release on the same token decrements again, to -1 — a second
observable state mutation. -/
theorem c1_release_not_idempotent :
    New 1 0 0 = some ⟨1, 0, 0, ⟨0, mkRat 1 10⟩⟩ ∧
    (acquire ⟨1, 0, 0, ⟨0, mkRat 1 10⟩⟩).1.accepted = true ∧
    (releaseTok (acquire ⟨1, 0, 0, ⟨0, mkRat 1 10⟩⟩).1 0
      (acquire ⟨1, 0, 0, ⟨0, mkRat 1 10⟩⟩).2).current = 0 ∧
    (releaseTok (acquire ⟨1, 0, 0, ⟨0, mkRat 1 10⟩⟩).1 0
      (releaseTok (acquire ⟨1, 0, 0, ⟨0, mkRat 1 10⟩⟩).1 0
        (acquire ⟨1, 0, 0, ⟨0, mkRat 1 10⟩⟩).2)).current = -1 := by
  decide

/-- C2: the claim says the occupancy counter stays non-negative across
every finite sequence of Acquire/Release operations, including repeated
Release calls on the same token.  On the embedded code the sequence
Acquire; Release; Release from a fresh limiter (`New` with Limit 1)
leaves the counter at -1, observed negative. -/
theorem c2_counter_observed_negative :
    New 1 0 0 = some ⟨1, 0, 0, ⟨0, mkRat 1 10⟩⟩ ∧
    (releaseTok (acquire ⟨1, 0, 0, ⟨0, mkRat 1 10⟩⟩).1 0
      (releaseTok (acquire ⟨1, 0, 0, ⟨0, mkRat 1 10⟩⟩).1 0
        (acquire ⟨1, 0, 0, ⟨0, mkRat 1 10⟩⟩).2)).current < 0 := by
  decide

/-- C8: construction of the waiting-queue engine (modelled from the spec,
its implementation not being under src) fails fatally exactly when
`limit <= 0` or `waitingLimit < 0`, and on valid arguments the occupancy
counter starts at 0. -/
theorem c8_construction_validation (limit waitingLimit : Int) :
    (NewS limit waitingLimit = none ↔ limit ≤ 0 ∨ waitingLimit < 0) ∧
    (∀ e, NewS limit waitingLimit = some e → e.current = 0) := by
  constructor
  · unfold NewS
    split_ifs with h <;> simp [h]
  · intro e he
    unfold NewS at he
    split_ifs at he
    exact (Option.some.inj he) ▸ rfl

/-- Witness for C8: `NewS 10 (-1)` panics, and `NewS 10 0` yields an
engine whose counter is 0. -/
theorem c8_construction_validation_witness :
    NewS 10 (-1) = none ∧ (⟨10, 0, 0⟩ : EngineS).current = 0 :=
  ⟨(c8_construction_validation 10 (-1)).1.mpr (Or.inr (by decide)),
   (c8_construction_validation 10 0).2 ⟨10, 0, 0⟩ (by decide)⟩

/-- C9: Release on a rejected token (embedded `Token.Release`,
src/limiter.go) and Release on a nil token (modelled from the spec)
leave the limiter state — hence the occupancy counter and any Stats
derived from it — unchanged, for every limiter state; both are total
functions, so neither panics. -/
theorem c9_release_nil_and_rejected_safe :
    (∀ (l : Shedder) (t : Token) (d : Int), t.accepted = false → releaseTok t d l = l) ∧
    (∀ (l : Shedder) (d : Int), releaseOpt none d l = l) := by
  refine ⟨fun l t d h => ?_, fun l d => rfl⟩
  unfold releaseTok
  simp [h]

/-- Witness for C9: a concrete rejected token and a nil token released
against a concrete limiter state change nothing. -/
theorem c9_release_nil_and_rejected_safe_witness :
    releaseTok ⟨false⟩ 7 ⟨1, 1, 0, ⟨0, mkRat 1 10⟩⟩ = ⟨1, 1, 0, ⟨0, mkRat 1 10⟩⟩ ∧
    releaseOpt none 7 ⟨1, 1, 0, ⟨0, mkRat 1 10⟩⟩ = ⟨1, 1, 0, ⟨0, mkRat 1 10⟩⟩ :=
  ⟨c9_release_nil_and_rejected_safe.1 _ ⟨false⟩ 7 rfl,
   c9_release_nil_and_rejected_safe.2 _ 7⟩

/-- C3: with the QoS policy disabled (`maxWaitTime == 0`), Acquire
increments the counter; if the post-increment value `n` exceeds the
limit the counter is decremented back and a rejected token is returned
(the counter ends at its pre-call value), otherwise an accepted token is
returned and the counter stays incremented by one. -/
theorem c3_acquire_without_qos (l : Shedder) (h0 : l.maxWaitTime = 0)
    (hlo : -(2 ^ 63) ≤ l.current) (hhi : l.current + 1 < 2 ^ 63) :
    (l.limit < l.current + 1 →
      (acquire l).1.accepted = false ∧ (acquire l).2.current = l.current) ∧
    (l.current + 1 ≤ l.limit →
      (acquire l).1.accepted = true ∧ (acquire l).2.current = l.current + 1) := by
  have hw : wrap64 (l.current + 1) = l.current + 1 :=
    wrap64_eq_of_range _ (by omega) hhi
  have hw2 : wrap64 (l.current + 1 - 1) = l.current := by
    have he : l.current + 1 - 1 = l.current := by ring
    rw [he]
    exact wrap64_eq_of_range _ hlo (by omega)
  unfold acquire
  simp only [hw, hw2, h0]
  constructor
  · intro hover
    rw [if_pos hover, if_neg (by simp)]
    exact ⟨rfl, rfl⟩
  · intro hunder
    rw [if_neg (by omega)]
    exact ⟨rfl, rfl⟩

/-- Witness for C3: limit 1 with one slot taken rejects and restores the
counter to 1; limit 2 with no slot taken accepts and leaves the counter
at 1. -/
theorem c3_acquire_without_qos_witness :
    ((acquire ⟨1, 1, 0, ⟨0, mkRat 1 10⟩⟩).1.accepted = false ∧
      (acquire ⟨1, 1, 0, ⟨0, mkRat 1 10⟩⟩).2.current = 1) ∧
    ((acquire ⟨2, 0, 0, ⟨0, mkRat 1 10⟩⟩).1.accepted = true ∧
      (acquire ⟨2, 0, 0, ⟨0, mkRat 1 10⟩⟩).2.current = 1) := by
  constructor
  · exact (c3_acquire_without_qos ⟨1, 1, 0, ⟨0, mkRat 1 10⟩⟩ rfl (by decide)
      (by decide)).1 (by decide)
  · have h := (c3_acquire_without_qos ⟨2, 0, 0, ⟨0, mkRat 1 10⟩⟩ rfl (by decide)
      (by decide)).2 (by decide)
    exact ⟨h.1, h.2.trans (by decide)⟩

/-- C4: in the QoS variant (`maxWaitTime > 0`), an Acquire whose
post-increment occupancy `n` exceeds the limit is accepted if and only if
`(n - limit) * averageDuration <= maxWaitTime` (within the int64 range
of the multiplication). -/
theorem c4_qos_admission (l : Shedder) (hq : 0 < l.maxWaitTime) (hlim : 0 < l.limit)
    (hover : l.limit < l.current + 1) (hhi : l.current + 1 < 2 ^ 63)
    (havg : l.tracker.avgDuration < 2 ^ 63)
    (hprod : (l.current + 1 - l.limit) * (l.tracker.avgDuration : Int) < 2 ^ 63) :
    ((acquire l).1.accepted = true ↔
      (l.current + 1 - l.limit) * (l.tracker.avgDuration : Int) ≤ l.maxWaitTime) := by
  have hw : wrap64 (l.current + 1) = l.current + 1 :=
    wrap64_eq_of_range _ (by omega) hhi
  have havgI : average l.tracker = (l.tracker.avgDuration : Int) := by
    unfold average toI64
    rw [if_pos havg]
  by_cases hz : l.tracker.avgDuration = 0
  · have hpw : calculateProjectedWaitTime { l with current := l.current + 1 }
        (l.current + 1) = 0 := by
      unfold calculateProjectedWaitTime
      dsimp only
      rw [if_neg (by omega)]
      simp only [havgI, hz]
      norm_num
    unfold acquire
    simp only [hw]
    rw [if_pos hover, if_pos ⟨hq, by rw [hpw]; omega⟩]
    constructor
    · intro _
      rw [hz]
      simpa using le_of_lt hq
    · intro _
      rfl
  · have hqd : wrap64 (l.current + 1 - l.limit) = l.current + 1 - l.limit :=
      wrap64_eq_of_range _ (by omega) (by omega)
    have hprod0 : 0 ≤ (l.current + 1 - l.limit) * (l.tracker.avgDuration : Int) :=
      mul_nonneg (by omega) (by positivity)
    have hpw : calculateProjectedWaitTime { l with current := l.current + 1 }
        (l.current + 1) =
        (l.current + 1 - l.limit) * (l.tracker.avgDuration : Int) := by
      unfold calculateProjectedWaitTime
      dsimp only
      rw [if_neg (by omega)]
      simp only [havgI]
      rw [if_neg (by exact_mod_cast hz), hqd]
      exact wrap64_eq_of_range _ (by omega) hprod
    unfold acquire
    simp only [hw, hpw]
    rw [if_pos hover]
    split_ifs with hc
    · exact iff_of_true rfl hc.2
    · exact iff_of_false (by simp) fun hle => hc ⟨hq, hle⟩

/-- Witness for C4: with limit 2 and two operations in flight, an EMA of
50ms under a 500ms `maxWaitTime` admits the third request, while an EMA
of 200ms under a 50ms `maxWaitTime` rejects it. -/
theorem c4_qos_admission_witness :
    (acquire ⟨2, 2, 500000000, ⟨50000000, mkRat 1 10⟩⟩).1.accepted = true ∧
    (acquire ⟨2, 2, 50000000, ⟨200000000, mkRat 1 10⟩⟩).1.accepted = false := by
  constructor
  · exact (c4_qos_admission ⟨2, 2, 500000000, ⟨50000000, mkRat 1 10⟩⟩ (by decide)
      (by decide) (by decide) (by decide) (by decide) (by decide)).mpr (by decide)
  · have h := c4_qos_admission ⟨2, 2, 50000000, ⟨200000000, mkRat 1 10⟩⟩ (by decide)
      (by decide) (by decide) (by decide) (by decide) (by decide)
    have hne : ¬(acquire ⟨2, 2, 50000000, ⟨200000000, mkRat 1 10⟩⟩).1.accepted = true :=
      fun hacc => absurd (h.mp hacc) (by decide)
    simpa using hne

/-- C5: in the QoS variant, with no duration recorded yet the projected
wait time is computed as 0 and every over-limit Acquire is accepted,
whatever the occupancy above the limit. -/
theorem c5_cold_start_accepts (l : Shedder) (hq : 0 < l.maxWaitTime)
    (havg : l.tracker.avgDuration = 0) (hlim : 0 < l.limit)
    (hover : l.limit < l.current + 1) (hhi : l.current + 1 < 2 ^ 63) :
    (acquire l).1.accepted = true ∧
      calculateProjectedWaitTime l (l.current + 1) = 0 := by
  have hw : wrap64 (l.current + 1) = l.current + 1 :=
    wrap64_eq_of_range _ (by omega) hhi
  have hpw : calculateProjectedWaitTime l (l.current + 1) = 0 := by
    unfold calculateProjectedWaitTime
    rw [if_neg (by omega)]
    simp only [average, toI64, havg]
    norm_num
  refine ⟨?_, hpw⟩
  unfold acquire
  simp only [hw]
  rw [if_pos hover, if_pos ⟨hq, by rw [show calculateProjectedWaitTime
    { l with current := l.current + 1 } (l.current + 1) =
      calculateProjectedWaitTime l (l.current + 1) from rfl, hpw]; omega⟩]

/-- Witness for C5: occupancy two at limit two with an empty tracker and
`maxWaitTime` 100ns admits the third request with projected wait 0. -/
theorem c5_cold_start_accepts_witness :
    (acquire ⟨2, 2, 100, ⟨0, mkRat 1 10⟩⟩).1.accepted = true ∧
      calculateProjectedWaitTime ⟨2, 2, 100, ⟨0, mkRat 1 10⟩⟩ (2 + 1) = 0 :=
  c5_cold_start_accepts ⟨2, 2, 100, ⟨0, mkRat 1 10⟩⟩ (by decide) rfl (by decide)
    (by decide) (by decide)

/-- C6: on a freshly constructed duration tracker, a single `record d`
stores the first measurement directly (no blending), so `average` then
returns exactly `d` for every int64 duration `d`. -/
theorem c6_first_record_exact (a : ℚ) (t : Tracker)
    (hn : newDurationTracker a = some t) (d : Int)
    (h1 : -(2 ^ 63) ≤ d) (h2 : d < 2 ^ 63) :
    average (record t d) = d := by
  have ht : t.avgDuration = 0 := by
    unfold newDurationTracker at hn
    split_ifs at hn
    exact (Option.some.inj hn) ▸ rfl
  unfold record recordNanos
  rw [if_pos ht]
  unfold average
  exact toI64_toU64 d h1 h2

/-- Witness for C6: recording 42ns on the tracker built with the default
alpha yields an average of exactly 42ns. -/
theorem c6_first_record_exact_witness :
    average (record ⟨0, mkRat 1 10⟩ 42) = 42 :=
  c6_first_record_exact (mkRat 1 10) ⟨0, mkRat 1 10⟩ (by decide) 42 (by decide)
    (by decide)

/-- C10: `New` replaces an `EMAAlpha` of exactly 0 by the default 0.1
and constructs successfully; every other smoothing factor outside the
open interval (0,1) — negative, or at least 1 — makes
`newDurationTracker`, and hence `New`, panic; factors inside (0,1)
construct successfully. -/
theorem c10_alpha_zero_defaulted (limitC maxWaitTimeC : Int) (hl : 0 < limitC) :
    New limitC maxWaitTimeC 0 = some ⟨limitC, 0, maxWaitTimeC, ⟨0, mkRat 1 10⟩⟩ ∧
    (∀ a : ℚ, a ≠ 0 → a < 0 ∨ 1 ≤ a →
      newDurationTracker a = none ∧ New limitC maxWaitTimeC a = none) ∧
    (∀ a : ℚ, 0 < a → a < 1 → (New limitC maxWaitTimeC a).isSome = true) := by
  have hnl : ¬limitC ≤ 0 := by omega
  refine ⟨?_, ?_, ?_⟩
  · unfold New
    rw [if_neg hnl, if_pos rfl]
    unfold newDurationTracker
    rw [if_neg (by decide)]
    rfl
  · intro a ha hout
    have hcond : a ≤ 0 ∨ 1 ≤ a := by
      rcases hout with h | h
      · exact Or.inl h.le
      · exact Or.inr h
    have hdt : newDurationTracker a = none := by
      unfold newDurationTracker
      rw [if_pos hcond]
    refine ⟨hdt, ?_⟩
    unfold New
    rw [if_neg hnl, if_neg ha, hdt]
    rfl
  · intro a h0 h1
    unfold New
    rw [if_neg hnl, if_neg (ne_of_gt h0)]
    unfold newDurationTracker
    rw [if_neg (by push_neg; exact ⟨h0, h1⟩)]
    rfl

/-- Witness for C10: alpha 0 constructs with the default tracker, alpha
-1/2 panics, alpha 1/2 constructs. -/
theorem c10_alpha_zero_defaulted_witness :
    New 5 0 0 = some ⟨5, 0, 0, ⟨0, mkRat 1 10⟩⟩ ∧
    New 5 0 (mkRat (-1) 2) = none ∧
    (New 5 0 (mkRat 1 2)).isSome = true :=
  ⟨(c10_alpha_zero_defaulted 5 0 (by decide)).1,
   ((c10_alpha_zero_defaulted 5 0 (by decide)).2.1 (mkRat (-1) 2) (by decide)
     (Or.inl (by decide))).2,
   (c10_alpha_zero_defaulted 5 0 (by decide)).2.2 (mkRat 1 2) (by decide) (by decide)⟩

end Loadshedder
